import Mathlib

/-!
Shallow embedding of `src/cycle_gan.py` (class `CycleGAN`), the training and
inference controller of a CycleGAN.

Modelling conventions:
* Tensors are symbolic expression trees (`Tensor`): model application builds a
  gradient graph node, `detach` severs the graph, and the two loss criteria
  (`nn.BCELoss` as `bce`, `nn.L1Loss` as `l1`) are uninterpreted constructors.
* The controller object is a record `CGState` holding the stored sample
  tensors (`Option Tensor`, `none` modelling Python `None`), per-parameter
  `requires_grad` flags, accumulated gradients, parameter values, the ambient
  gradient-tracking mode (`torch.no_grad`), and an event log recording the
  order of the side-effecting operations of a training step.
* `loss.backward()` is modelled by `CGState.backwardT`: it bumps the gradient
  accumulator of exactly those parameters reachable from the loss expression
  through the gradient graph (stopping at `detach`, and only for parameters
  whose `requires_grad` flag is set), mirroring autograd's accumulation.
* Fallible operations (attribute access on objects that only exist in
  training mode, use of inputs before `set_input`, checkpoint loading)
  return `Except CGError _`.
-/

/-- The four sub-models of the controller (`GenA`, `GenB`, `DisA`, `DisB`). -/
inductive Model
  | genA
  | genB
  | disA
  | disB
deriving DecidableEq, Repr

/-- A parameter is identified by its owning model and an index within it. -/
abbrev ParamRef := Model × Nat

/-- Symbolic tensors: expression trees recording the gradient graph. -/
inductive Tensor
  /-- a raw data batch (e.g. `real_A`); carries no gradient history -/
  | input (id : Nat)
  /-- a constant scalar (the `0` the loss fields are initialised to) -/
  | const (c : ℚ)
  /-- application of a sub-model, building a graph node over its parameters -/
  | appM (m : Model) (t : Tensor)
  /-- Python `t.detach()`: same value, gradient history severed -/
  | detach (t : Tensor)
  /-- elementwise sum (`+` on losses) -/
  | add (a b : Tensor)
  /-- scalar multiple (`* 0.5`, `* lambda_A`, `* lambda_B`) -/
  | smul (c : ℚ) (t : Tensor)
  /-- the loss `criterionGAN(pred, target)`, i.e. `nn.BCELoss` against a label -/
  | bce (pred : Tensor) (target : Bool)
  /-- the loss `criterionCycle(a, b)`, i.e. `nn.L1Loss` -/
  | l1 (a b : Tensor)
deriving DecidableEq, Repr

/-- The checkpoint weight files of §6 of the design. -/
inductive CkptFile
  | genA_pth
  | genB_pth
  | disA_pth
  | disB_pth
deriving DecidableEq, Repr

/-- Errors the controller can surface. -/
inductive CGError
  /-- marker present but a weight file missing or malformed -/
  | checkpointLoadError (f : CkptFile)
  /-- raised when `forward` used `real_A`/`real_B` while still `None` -/
  | uninitializedInput
  /-- access to an attribute (`DisA`, `DisB`, `criterionGAN`, optimizers)
      that only exists when the controller was built with `train=True` -/
  | attributeError
deriving DecidableEq, Repr

/-- Events logged by the side-effecting operations, in execution order. -/
inductive Event
  /-- entry into `forward()` -/
  | evForward
  /-- assignment of one of the four intermediates inside `forward()`,
      one event per assignment statement, in statement order -/
  | evAssignFakeB
  | evAssignNewA
  | evAssignFakeA
  | evAssignNewB
  /-- call of `set_requires_grad(nets, flag)` -/
  | evSetRG (nets : List (Option Model)) (flag : Bool)
  /-- call of `optimizer_g.zero_grad()` when `true`, of `optimizer_d.zero_grad()` when `false` -/
  | evZeroGrad (genOpt : Bool)
  /-- marker that `backward_g()` ran its accumulation pass -/
  | evBackwardG
  /-- marker that `backward_d(netD, _, _)` ran its accumulation pass -/
  | evBackwardD (netD : Model)
  /-- call of `optimizer_g.step()` when `true`, of `optimizer_d.step()` when `false` -/
  | evStep (genOpt : Bool)
deriving DecidableEq, Repr

/-- The mutable state of a `CycleGAN` controller instance. -/
structure CGState where
  /-- weight for cycle-loss A->B->A (`self.lambda_A`, default 10.0) -/
  lambda_A : ℚ
  /-- weight for cycle-loss B->A->B (`self.lambda_B`, default 10.0) -/
  lambda_B : ℚ
  /-- the flag `self.is_train`; also gates existence of `DisA`, `DisB`, the loss
      criteria and the two optimizers, which are only constructed then -/
  is_train : Bool
  /-- per-parameter `requires_grad` flags -/
  rg : ParamRef → Bool
  /-- per-parameter accumulated gradients (abstracted to a counter) -/
  grads : ParamRef → ℤ
  /-- per-parameter weight values (abstract) -/
  params : ParamRef → ℤ
  /-- ambient gradient-tracking mode; `false` inside `torch.no_grad()` -/
  gradEnabled : Bool
  /-- the fields `self.real_A` … `self.new_B`, all `None` at construction -/
  real_A : Option Tensor
  real_B : Option Tensor
  fake_A : Option Tensor
  fake_B : Option Tensor
  new_A : Option Tensor
  new_B : Option Tensor
  /-- the loss diagnostics, `0` at construction in training mode -/
  loss_disA : Tensor
  loss_disB : Tensor
  loss_genA : Tensor
  loss_genB : Tensor
  loss_cycle_A : Tensor
  loss_cycle_B : Tensor
  loss_G : Tensor
  /-- which checkpoint weight files the constructor loaded -/
  loaded : List CkptFile
  /-- event log of the side-effecting operations, oldest first -/
  log : List Event

/-- Parameters owned by `optimizer_g` (the joint GenA/GenB group). -/
def optGParams (p : ParamRef) : Bool :=
  match p.1 with
  | .genA => true
  | .genB => true
  | _ => false

/-- Parameters owned by `optimizer_d` (the joint DisA/DisB group). -/
def optDParams (p : ParamRef) : Bool :=
  match p.1 with
  | .disA => true
  | .disB => true
  | _ => false

/-- Does backward from tensor `t` reach parameter `p`?  Autograd walks the
graph, stops at `detach`, and delivers a gradient to a model parameter only
when its `requires_grad` flag was set. -/
def reaches (rg : ParamRef → Bool) (p : ParamRef) : Tensor → Bool
  | .input _ => false
  | .const _ => false
  | .appM m t => (decide (p.1 = m) && rg p) || reaches rg p t
  | .detach _ => false
  | .add a b => reaches rg p a || reaches rg p b
  | .smul _ t => reaches rg p t
  | .bce t _ => reaches rg p t
  | .l1 a b => reaches rg p a || reaches rg p b

/-- Model application as executed at runtime: inside a `no_grad` scope the
result carries no gradient history. -/
def CGState.mkApp (s : CGState) (m : Model) (t : Tensor) : Tensor :=
  if s.gradEnabled then .appM m t else .detach (.appM m t)

/-- Autograd `loss.backward()`: accumulate one unit of gradient into every parameter
reachable from the loss expression. -/
def CGState.backwardT (s : CGState) (t : Tensor) : CGState :=
  { s with grads := fun p => s.grads p + (if reaches s.rg p t then 1 else 0) }

/-- Embedding of `CycleGAN.set_input` (source lines 57-59): store the two batches as the
current step's inputs. -/
def CGState.set_input (s : CGState) (rA rB : Tensor) : CGState :=
  { s with real_A := some rA, real_B := some rB }

/-- Embedding of `CycleGAN.forward` (source lines 61-66). -/
def CGState.forward (s : CGState) : Except CGError CGState :=
  match s.real_A, s.real_B with
  | some rA, some rB =>
    let fB := s.mkApp .genA rA
    let nA := s.mkApp .genB fB
    let fA := s.mkApp .genB rB
    let nB := s.mkApp .genA fA
    .ok { s with
      fake_B := some fB, new_A := some nA, fake_A := some fA, new_B := some nB,
      log := s.log ++ [.evForward, .evAssignFakeB, .evAssignNewA,
                       .evAssignFakeA, .evAssignNewB] }
  | _, _ => .error .uninitializedInput

/-- Embedding of `CycleGAN.backward_d` (source lines 68-78): discriminator loss on a real
batch against the "real" label and on the detached fake batch against the
"fake" label, halved, backward pass, loss returned. -/
def CGState.backward_d (s : CGState) (netD : Model) (real fake : Tensor) :
    Except CGError (CGState × Tensor) :=
  if s.is_train then
    let predict_real := s.mkApp netD real
    let loss_d_real := Tensor.bce predict_real true
    let predict_fake := s.mkApp netD (Tensor.detach fake)
    let loss_d_fake := Tensor.bce predict_fake false
    let loss_d := Tensor.smul ((1 : ℚ)/2) (Tensor.add loss_d_real loss_d_fake)
    let s' := s.backwardT loss_d
    .ok ({ s' with log := s'.log ++ [.evBackwardD netD] }, loss_d)
  else
    .error .attributeError

/-- Embedding of `CycleGAN.backward_g` (source lines 80-92): adversarial terms driving the
fakes to be classified real, the two weighted cycle terms, their sum, and a
backward pass on the combined loss. -/
def CGState.backward_g (s : CGState) : Except CGError CGState :=
  if s.is_train then
    match s.real_A, s.real_B, s.fake_A, s.fake_B, s.new_A, s.new_B with
    | some rA, some rB, some fA, some fB, some nA, some nB =>
      let lgA := Tensor.bce (s.mkApp .disA fB) true
      let lgB := Tensor.bce (s.mkApp .disB fA) true
      let lcA := Tensor.smul s.lambda_A (Tensor.l1 nA rA)
      let lcB := Tensor.smul s.lambda_B (Tensor.l1 nB rB)
      let lG := Tensor.add (Tensor.add (Tensor.add lgA lgB) lcA) lcB
      let s' := s.backwardT lG
      .ok { s' with
        loss_genA := lgA, loss_genB := lgB,
        loss_cycle_A := lcA, loss_cycle_B := lcB, loss_G := lG,
        log := s'.log ++ [.evBackwardG] }
    | _, _, _, _, _, _ => .error .uninitializedInput
  else
    .error .attributeError

/-- Embedding of `CycleGAN.set_requires_grad` (source lines 130-135), the flag map it
leaves behind: for each non-null net in order, set the flag of every one of
its parameters; null entries are skipped. -/
def setRGList (rg : ParamRef → Bool) :
    List (Option Model) → Bool → (ParamRef → Bool)
  | [], _ => rg
  | none :: rest, flag => setRGList rg rest flag
  | some m :: rest, flag =>
      setRGList (fun p => if p.1 = m then flag else rg p) rest flag

/-- the method `self.set_requires_grad(nets, flag)` as a state operation (logged). -/
def CGState.set_requires_grad (s : CGState) (nets : List (Option Model))
    (flag : Bool) : CGState :=
  { s with rg := setRGList s.rg nets flag,
           log := s.log ++ [.evSetRG nets flag] }

/-- Embedding of `optimizer_g.zero_grad()` / `optimizer_d.zero_grad()`: clear accumulated
gradients of the owned parameter group. -/
def CGState.zeroGrad (s : CGState) (genOpt : Bool) : CGState :=
  { s with
    grads := fun p =>
      if (if genOpt then optGParams p else optDParams p) then 0 else s.grads p,
    log := s.log ++ [.evZeroGrad genOpt] }

/-- Embedding of `optimizer_g.step()` / `optimizer_d.step()`: apply an update built from
the accumulated gradient to every owned parameter (the concrete Adam update
rule is abstracted to a gradient-dependent shift). -/
def CGState.stepOpt (s : CGState) (genOpt : Bool) : CGState :=
  { s with
    params := fun p =>
      if (if genOpt then optGParams p else optDParams p) then
        s.params p - s.grads p
      else s.params p,
    log := s.log ++ [.evStep genOpt] }

/-- Read a stored tensor attribute, failing on `None`. -/
def getT : Option Tensor → Except CGError Tensor
  | some t => .ok t
  | none => .error .uninitializedInput

/-- Embedding of `CycleGAN.train` (source lines 94-114): one optimization step. -/
def CGState.train (s : CGState) : Except CGError CGState := do
  -- forward
  let s1 ← s.forward
  -- GenA and GenB: the remaining statements touch DisA/DisB/the optimizers,
  -- which only exist in training mode
  if s1.is_train then
    let s2 := s1.set_requires_grad [some .disA, some .disB] false
    let s3 := s2.zeroGrad true
    let s4 ← s3.backward_g
    let s5 := s4.stepOpt true
    -- DisA and DisB
    let s6 := s5.set_requires_grad [some .disA, some .disB] true
    let s7 := s6.zeroGrad false
    -- backward Dis A
    let rB ← getT s7.real_B
    let fB ← getT s7.fake_B
    let (s8, ldA) ← s7.backward_d .disA rB fB
    let s8 := { s8 with loss_disA := ldA }
    -- backward Dis B
    let rA ← getT s8.real_A
    let fA ← getT s8.fake_A
    let (s9, ldB) ← s8.backward_d .disB rA fA
    let s9 := { s9 with loss_disB := ldB }
    .ok (s9.stepOpt false)
  else
    .error .attributeError

/-- Embedding of `CycleGAN.test` (source lines 116-118): `forward()` inside a
`torch.no_grad()` scope, the ambient mode restored afterwards. -/
def CGState.test (s : CGState) : Except CGError CGState := do
  let s1 ← { s with gradEnabled := false }.forward
  .ok { s1 with gradEnabled := s.gradEnabled }

/-- A side-effecting write performed by `save_progress`. -/
inductive WriteOp
  /-- the sample-grid image `<path><epoch>_<iteration>.png` -/
  | image (path : String) (epoch iteration : Nat)
  /-- a `torch.save` of one model's weights -/
  | ckpt (f : CkptFile)
  /-- call of `self.epoch_tracker.write(epoch, iteration)` -/
  | marker (epoch iteration : Nat)
deriving DecidableEq

/-- Embedding of `CycleGAN.save_progress` (source lines 120-128): writes performed in
order, and the error aborting the call, if any.  The image grid needs the
four stored sample tensors (`.data` on `None` fails); the discriminator
saves read `self.DisA`/`self.DisB`, which exist only in training mode. -/
def CGState.save_progress (s : CGState) (path : String) (epoch iteration : Nat) :
    List WriteOp × Option CGError :=
  match s.real_A, s.fake_A, s.real_B, s.fake_B with
  | some _, some _, some _, some _ =>
    let writes := [WriteOp.image path epoch iteration,
                   WriteOp.ckpt .genA_pth, WriteOp.ckpt .genB_pth]
    if s.is_train then
      (writes ++ [WriteOp.ckpt .disA_pth, WriteOp.ckpt .disB_pth,
                  WriteOp.marker epoch iteration], none)
    else
      (writes, some .attributeError)
  | _, _, _, _ => ([], some .attributeError)

/-- The checkpoint directory as seen by the constructor: whether the epoch
marker file exists, and whether each weight file is present and well-formed
(loadable). -/
structure FS where
  markerExists : Bool
  genAFile : Bool
  genBFile : Bool
  disAFile : Bool
  disBFile : Bool

/-- The loading sequence of source lines 49-54: `generator_a.pth`,
`generator_b.pth`, then in training mode `discriminator_a.pth`,
`discriminator_b.pth`; the first missing or malformed file aborts. -/
def loadCkpts (fs : FS) (train : Bool) : Except CGError (List CkptFile) :=
  if fs.genAFile = false then .error (.checkpointLoadError .genA_pth)
  else if fs.genBFile = false then .error (.checkpointLoadError .genB_pth)
  else if train then
    if fs.disAFile = false then .error (.checkpointLoadError .disA_pth)
    else if fs.disBFile = false then .error (.checkpointLoadError .disB_pth)
    else .ok [.genA_pth, .genB_pth, .disA_pth, .disB_pth]
  else .ok [.genA_pth, .genB_pth]

/-- The field values of a freshly constructed controller (source lines
13-46), before the checkpoint-loading block. -/
def freshState (train : Bool) : CGState where
  lambda_A := 10
  lambda_B := 10
  is_train := train
  rg := fun _ => true
  grads := fun _ => 0
  params := fun _ => 0
  gradEnabled := true
  real_A := none
  real_B := none
  fake_A := none
  fake_B := none
  new_A := none
  new_B := none
  loss_disA := .const 0
  loss_disB := .const 0
  loss_genA := .const 0
  loss_genB := .const 0
  loss_cycle_A := .const 0
  loss_cycle_B := .const 0
  loss_G := .const 0
  loaded := []
  log := []

/-- Embedding of `CycleGAN.__init__` (source lines 12-54): build the fresh state, then, if
the epoch marker file exists, load the weight files (all four in training
mode, the two generator files otherwise), failing on a missing or malformed
file. -/
def initCycleGAN (fs : FS) (train : Bool) : Except CGError CGState :=
  if fs.markerExists then
    match loadCkpts fs train with
    | .ok files => .ok { freshState train with loaded := files }
    | .error e => .error e
  else .ok (freshState train)

/-- Claim C6: after `set_input(real_A, real_B)` and `forward()`, the stored
intermediates satisfy exactly `fake_B = GenA(real_A)`,
`new_A = GenB(fake_B) = GenB(GenA(real_A))`, `fake_A = GenB(real_B)`, and
`new_B = GenA(fake_A) = GenA(GenB(real_B))`, produced in that order
(witnessed by the assignment events in the log), with `forward` mutating no
model parameter. -/
theorem forward_wiring (s : CGState) (rA rB : Tensor)
    (hG : s.gradEnabled = true) :
    ∃ s', (s.set_input rA rB).forward = .ok s' ∧
      s'.fake_B = some (.appM .genA rA) ∧
      s'.new_A = some (.appM .genB (.appM .genA rA)) ∧
      s'.fake_A = some (.appM .genB rB) ∧
      s'.new_B = some (.appM .genA (.appM .genB rB)) ∧
      s'.params = s.params ∧
      s'.log = s.log ++ [.evForward, .evAssignFakeB, .evAssignNewA,
                         .evAssignFakeA, .evAssignNewB] := by
  simp [CGState.set_input, CGState.forward, CGState.mkApp, hG]

/-- Claim C6 witness at a concrete state and concrete input batches. -/
theorem forward_wiring_witness :
    ∃ s', ((freshState true).set_input (.input 0) (.input 1)).forward = .ok s' ∧
      s'.fake_B = some (.appM .genA (.input 0)) ∧
      s'.new_A = some (.appM .genB (.appM .genA (.input 0))) ∧
      s'.fake_A = some (.appM .genB (.input 1)) ∧
      s'.new_B = some (.appM .genA (.appM .genB (.input 1))) ∧
      s'.params = (freshState true).params ∧
      s'.log = (freshState true).log ++
        [.evForward, .evAssignFakeB, .evAssignNewA, .evAssignFakeA, .evAssignNewB] :=
  forward_wiring (freshState true) (.input 0) (.input 1) rfl

/-- Claim C7: calling `forward()` without a prior `set_input()` in the same
controller lifetime fails with the uninitialized-input error: every state a
successful construction returns still has `real_A`/`real_B` undefined, and
`forward` on it errors out. -/
theorem forward_before_set_input (fs : FS) (train : Bool) (s : CGState)
    (h : initCycleGAN fs train = .ok s) :
    s.forward = .error .uninitializedInput := by
  have hA : s.real_A = none := by
    unfold initCycleGAN at h
    split at h
    · cases hl : loadCkpts fs train with
      | ok files => rw [hl] at h; cases h; rfl
      | error e => rw [hl] at h; cases h
    · cases h; rfl
  unfold CGState.forward
  rw [hA]

/-- Claim C7 witness: a freshly constructed inference-mode controller with no
checkpoint marker rejects `forward`. -/
theorem forward_before_set_input_witness :
    (freshState false).forward = .error .uninitializedInput :=
  forward_before_set_input ⟨false, false, false, false, false⟩ false
    (freshState false) rfl

/-- The flag a parameter ends up with after the `set_requires_grad` loop:
`flag` when some non-null entry of the list owns it, the old value
otherwise. -/
theorem setRGList_eval (nets : List (Option Model)) (flag : Bool)
    (rg : ParamRef → Bool) (p : ParamRef) :
    setRGList rg nets flag p = if some p.1 ∈ nets then flag else rg p := by
  induction nets generalizing rg with
  | nil => simp [setRGList]
  | cons hd tl ih =>
    cases hd with
    | none => simp [setRGList, ih]
    | some m =>
      rw [setRGList, ih]
      by_cases h : some p.1 ∈ tl
      · simp [h]
      · by_cases hm : p.1 = m <;> simp [h, hm]

/-- Claim C8: `set_requires_grad(models, flag)` sets the gradient-tracking
flag of every parameter of every non-null model in the list to exactly
`flag`, leaves the flag of every parameter owned by no listed model
unchanged, and skips null entries without raising (a `none` entry has no
effect at all on the resulting flag map). -/
theorem set_requires_grad_spec (rg : ParamRef → Bool)
    (nets : List (Option Model)) (flag : Bool) :
    (∀ p : ParamRef, some p.1 ∈ nets → setRGList rg nets flag p = flag) ∧
    (∀ p : ParamRef, some p.1 ∉ nets → setRGList rg nets flag p = rg p) ∧
    setRGList rg (none :: nets) flag = setRGList rg nets flag := by
  refine ⟨?_, ?_, rfl⟩
  · intro p hp
    rw [setRGList_eval]
    simp [hp]
  · intro p hp
    rw [setRGList_eval]
    simp [hp]

/-- Claim C8 witness: freezing `[DisA, None, DisB]` turns tracking off for a
DisA parameter and a DisB parameter, leaves a GenA parameter on, and the
null entry is skipped. -/
theorem set_requires_grad_spec_witness :
    setRGList (fun _ => true) [some .disA, none, some .disB] false
      (Model.disA, 0) = false ∧
    setRGList (fun _ => true) [some .disA, none, some .disB] false
      (Model.disB, 3) = false ∧
    setRGList (fun _ => true) [some .disA, none, some .disB] false
      (Model.genA, 0) = true :=
  ⟨(set_requires_grad_spec (fun _ => true) [some .disA, none, some .disB]
      false).1 (Model.disA, 0) (by simp),
   (set_requires_grad_spec (fun _ => true) [some .disA, none, some .disB]
      false).1 (Model.disB, 3) (by simp),
   (set_requires_grad_spec (fun _ => true) [some .disA, none, some .disB]
      false).2.1 (Model.genA, 0) (by simp)⟩

/-- Claim C3: for every discriminator `netD` and batches `real` and `fake`,
`backward_d(netD, real, fake)` computes its loss as one half of the sum of
the adversarial loss of `netD(real)` against the "real" target label and the
adversarial loss of `netD(fake.detach())` against the "fake" target label,
triggers one backward gradient-accumulation pass on that loss, and returns
that scalar loss. -/
theorem backward_d_spec (s : CGState) (netD : Model) (real fake : Tensor)
    (hT : s.is_train = true) (hG : s.gradEnabled = true) :
    ∃ s', s.backward_d netD real fake =
        .ok (s', Tensor.smul ((1 : ℚ)/2)
          (.add (.bce (.appM netD real) true)
                (.bce (.appM netD (.detach fake)) false))) ∧
      s'.grads = (fun p => s.grads p +
        (if reaches s.rg p (Tensor.smul ((1 : ℚ)/2)
            (.add (.bce (.appM netD real) true)
                  (.bce (.appM netD (.detach fake)) false))) then 1 else 0)) ∧
      s'.params = s.params ∧ s'.rg = s.rg := by
  simp [CGState.backward_d, CGState.backwardT, CGState.mkApp, hT, hG]

/-- Claim C3 witness at concrete inputs: `DisA` scored on an input batch and
a generator output. -/
theorem backward_d_spec_witness :
    ∃ s', (freshState true).backward_d .disA (.input 1) (.appM .genA (.input 0)) =
        .ok (s', Tensor.smul ((1 : ℚ)/2)
          (.add (.bce (.appM .disA (.input 1)) true)
                (.bce (.appM .disA (.detach (.appM .genA (.input 0)))) false))) ∧
      s'.grads = (fun p => (freshState true).grads p +
        (if reaches (freshState true).rg p (Tensor.smul ((1 : ℚ)/2)
            (.add (.bce (.appM .disA (.input 1)) true)
                  (.bce (.appM .disA (.detach (.appM .genA (.input 0)))) false)))
         then 1 else 0)) ∧
      s'.params = (freshState true).params ∧ s'.rg = (freshState true).rg :=
  backward_d_spec (freshState true) .disA (.input 1) (.appM .genA (.input 0))
    rfl rfl

/-- Claim C4: because the fake batch is detached before the discriminator
scores it, a `backward_d` call in isolation leaves the gradient of every
parameter `(gen, i)` of the generator that produced `fake` unchanged — for
any `fake` whatsoever (in particular one whose graph contains the
generator's parameters), provided only that the generator is not the
discriminator being trained and its parameters do not occur in the real
batch's gradient graph. -/
theorem backward_d_detach_frame (s : CGState) (netD gen : Model)
    (real fake : Tensor) (i : Nat)
    (hT : s.is_train = true)
    (hne : gen ≠ netD)
    (hreal : reaches s.rg (gen, i) real = false) :
    ∃ s' l, s.backward_d netD real fake = .ok (s', l) ∧
      s'.grads (gen, i) = s.grads (gen, i) := by
  have hfalse : reaches s.rg (gen, i)
      (Tensor.smul ((1 : ℚ)/2) (.add (.bce (s.mkApp netD real) true)
        (.bce (s.mkApp netD (.detach fake)) false))) = false := by
    rcases hg : s.gradEnabled <;>
      simp [CGState.mkApp, hg, reaches, hreal, hne]
  simp only [CGState.backward_d, hT, if_true]
  refine ⟨_, _, rfl, ?_⟩
  simp only [CGState.backwardT, hfalse]
  simp

/-- Claim C4 witness: scoring `DisA` on an input batch and on the detached
output `GenA(input 0)` leaves the gradient of the GenA parameter `(genA, 0)`
untouched even though that parameter sits in `fake`'s graph with its
tracking flag on. -/
theorem backward_d_detach_frame_witness :
    ∃ s' l, (freshState true).backward_d .disA (.input 1)
        (.appM .genA (.input 0)) = .ok (s', l) ∧
      s'.grads (Model.genA, 0) = (freshState true).grads (Model.genA, 0) :=
  backward_d_detach_frame (freshState true) .disA .genA (.input 1)
    (.appM .genA (.input 0)) 0 rfl (by decide) rfl

/-- Claim C2: for every step whose `forward()` has run (all six sample
fields populated), `backward_g()` computes `loss_G` as the unweighted sum of
the adversarial loss of `DisA(fake_B)` against the "real" label, the
adversarial loss of `DisB(fake_A)` against the "real" label,
`L1(new_A, real_A) * lambda_A` and `L1(new_B, real_B) * lambda_B` — with no
identity-loss term — then runs a backward gradient-accumulation pass on
`loss_G`; and the constructor's defaults are `lambda_A = lambda_B = 10`. -/
theorem backward_g_spec (s : CGState) (rA rB fA fB nA nB : Tensor)
    (hT : s.is_train = true) (hG : s.gradEnabled = true)
    (h1 : s.real_A = some rA) (h2 : s.real_B = some rB)
    (h3 : s.fake_A = some fA) (h4 : s.fake_B = some fB)
    (h5 : s.new_A = some nA) (h6 : s.new_B = some nB) :
    (∃ s', s.backward_g = .ok s' ∧
      s'.loss_G = .add (.add (.add (.bce (.appM .disA fB) true)
                                   (.bce (.appM .disB fA) true))
                             (.smul s.lambda_A (.l1 nA rA)))
                       (.smul s.lambda_B (.l1 nB rB)) ∧
      s'.grads = (fun p => s.grads p +
        (if reaches s.rg p (Tensor.add (.add (.add (.bce (.appM .disA fB) true)
                                   (.bce (.appM .disB fA) true))
                             (.smul s.lambda_A (.l1 nA rA)))
                       (.smul s.lambda_B (.l1 nB rB))) then 1 else 0)) ∧
      s'.params = s.params) ∧
    (freshState true).lambda_A = 10 ∧ (freshState true).lambda_B = 10 := by
  refine ⟨?_, rfl, rfl⟩
  simp [CGState.backward_g, CGState.backwardT, CGState.mkApp,
        hT, hG, h1, h2, h3, h4, h5, h6]

/-- Claim C2 witness at a concrete post-forward state. -/
theorem backward_g_spec_witness :
    (∃ s', ({ freshState true with
        real_A := some (.input 0), real_B := some (.input 1),
        fake_A := some (.input 2), fake_B := some (.input 3),
        new_A := some (.input 4), new_B := some (.input 5) } :
          CGState).backward_g = .ok s' ∧
      s'.loss_G = .add (.add (.add (.bce (.appM .disA (.input 3)) true)
                                   (.bce (.appM .disB (.input 2)) true))
                             (.smul ({ freshState true with
        real_A := some (.input 0), real_B := some (.input 1),
        fake_A := some (.input 2), fake_B := some (.input 3),
        new_A := some (.input 4), new_B := some (.input 5) } :
          CGState).lambda_A (.l1 (.input 4) (.input 0))))
                       (.smul ({ freshState true with
        real_A := some (.input 0), real_B := some (.input 1),
        fake_A := some (.input 2), fake_B := some (.input 3),
        new_A := some (.input 4), new_B := some (.input 5) } :
          CGState).lambda_B (.l1 (.input 5) (.input 1))) ∧
      s'.grads = (fun p => ({ freshState true with
        real_A := some (.input 0), real_B := some (.input 1),
        fake_A := some (.input 2), fake_B := some (.input 3),
        new_A := some (.input 4), new_B := some (.input 5) } :
          CGState).grads p +
        (if reaches ({ freshState true with
        real_A := some (.input 0), real_B := some (.input 1),
        fake_A := some (.input 2), fake_B := some (.input 3),
        new_A := some (.input 4), new_B := some (.input 5) } :
          CGState).rg p
            (Tensor.add (.add (.add (.bce (.appM .disA (.input 3)) true)
                                   (.bce (.appM .disB (.input 2)) true))
                             (.smul ({ freshState true with
        real_A := some (.input 0), real_B := some (.input 1),
        fake_A := some (.input 2), fake_B := some (.input 3),
        new_A := some (.input 4), new_B := some (.input 5) } :
          CGState).lambda_A (.l1 (.input 4) (.input 0))))
                       (.smul ({ freshState true with
        real_A := some (.input 0), real_B := some (.input 1),
        fake_A := some (.input 2), fake_B := some (.input 3),
        new_A := some (.input 4), new_B := some (.input 5) } :
          CGState).lambda_B (.l1 (.input 5) (.input 1)))) then 1 else 0)) ∧
      s'.params = ({ freshState true with
        real_A := some (.input 0), real_B := some (.input 1),
        fake_A := some (.input 2), fake_B := some (.input 3),
        new_A := some (.input 4), new_B := some (.input 5) } :
          CGState).params) ∧
    (freshState true).lambda_A = 10 ∧ (freshState true).lambda_B = 10 :=
  backward_g_spec _ (.input 0) (.input 1) (.input 2) (.input 3)
    (.input 4) (.input 5) rfl rfl rfl rfl rfl rfl rfl rfl

/-- Claim C9: `test()` runs `forward()` inside a gradient-tracking-disabled
scope (the produced tensors carry a severed gradient history) and performs
no parameter mutation and no loss computation: after `set_input`, `test()`
produces the `fake_A` and `fake_B` tensors while every parameter value,
gradient and tracking flag of every model — in particular of GenA and GenB —
is unchanged, and every loss field is unchanged. -/
theorem test_spec (s : CGState) (rA rB : Tensor)
    (hA : s.real_A = some rA) (hB : s.real_B = some rB) :
    ∃ s', s.test = .ok s' ∧
      s'.fake_B = some (.detach (.appM .genA rA)) ∧
      s'.fake_A = some (.detach (.appM .genB rB)) ∧
      s'.params = s.params ∧ s'.grads = s.grads ∧ s'.rg = s.rg ∧
      s'.gradEnabled = s.gradEnabled ∧
      s'.loss_G = s.loss_G ∧
      s'.loss_genA = s.loss_genA ∧ s'.loss_genB = s.loss_genB ∧
      s'.loss_disA = s.loss_disA ∧ s'.loss_disB = s.loss_disB ∧
      s'.loss_cycle_A = s.loss_cycle_A ∧ s'.loss_cycle_B = s.loss_cycle_B := by
  simp [CGState.test, CGState.forward, CGState.mkApp, hA, hB,
        Bind.bind, Except.bind]

/-- Claim C9 witness at a concrete state after `set_input`. -/
theorem test_spec_witness :
    ∃ s', ((freshState false).set_input (.input 0) (.input 1)).test = .ok s' ∧
      s'.fake_B = some (.detach (.appM .genA (.input 0))) ∧
      s'.fake_A = some (.detach (.appM .genB (.input 1))) ∧
      s'.params = ((freshState false).set_input (.input 0) (.input 1)).params ∧
      s'.grads = ((freshState false).set_input (.input 0) (.input 1)).grads ∧
      s'.rg = ((freshState false).set_input (.input 0) (.input 1)).rg ∧
      s'.gradEnabled =
        ((freshState false).set_input (.input 0) (.input 1)).gradEnabled ∧
      s'.loss_G = ((freshState false).set_input (.input 0) (.input 1)).loss_G ∧
      s'.loss_genA =
        ((freshState false).set_input (.input 0) (.input 1)).loss_genA ∧
      s'.loss_genB =
        ((freshState false).set_input (.input 0) (.input 1)).loss_genB ∧
      s'.loss_disA =
        ((freshState false).set_input (.input 0) (.input 1)).loss_disA ∧
      s'.loss_disB =
        ((freshState false).set_input (.input 0) (.input 1)).loss_disB ∧
      s'.loss_cycle_A =
        ((freshState false).set_input (.input 0) (.input 1)).loss_cycle_A ∧
      s'.loss_cycle_B =
        ((freshState false).set_input (.input 0) (.input 1)).loss_cycle_B :=
  test_spec ((freshState false).set_input (.input 0) (.input 1))
    (.input 0) (.input 1) rfl rfl

/-- Claim C10: for a controller in inference mode (`train=False`, so `DisA`
and `DisB` were never constructed), `save_progress` fails: it raises the
attribute error before completing, and even in the best case — all four
sample tensors available — it performs only the image write and the two
generator checkpoint writes before the unconditional `DisA` access aborts
it; a freshly constructed inference-mode controller is indeed in inference
mode. -/
theorem save_progress_inference_fails (s : CGState) (path : String)
    (epoch iteration : Nat) (hT : s.is_train = false) :
    (s.save_progress path epoch iteration).2 = some .attributeError ∧
    (∀ a b c d : Tensor, s.real_A = some a → s.fake_A = some b →
      s.real_B = some c → s.fake_B = some d →
      s.save_progress path epoch iteration =
        ([.image path epoch iteration, .ckpt .genA_pth, .ckpt .genB_pth],
         some .attributeError)) ∧
    (freshState false).is_train = false := by
  refine ⟨?_, ?_, rfl⟩
  · unfold CGState.save_progress
    rcases s.real_A <;> rcases s.fake_A <;> rcases s.real_B <;>
      rcases s.fake_B <;> simp [hT]
  · intro a b c d h1 h2 h3 h4
    unfold CGState.save_progress
    rw [h1, h2, h3, h4]
    simp [hT]

/-- Claim C10 witness: a concrete inference-mode state that has run
`set_input` and `test` still cannot `save_progress`. -/
theorem save_progress_inference_fails_witness :
    (({ freshState false with
        real_A := some (.input 0), fake_A := some (.input 2),
        real_B := some (.input 1), fake_B := some (.input 3) } :
          CGState).save_progress "img/" 4 7).2 = some .attributeError ∧
    (∀ a b c d : Tensor,
      ({ freshState false with
        real_A := some (.input 0), fake_A := some (.input 2),
        real_B := some (.input 1), fake_B := some (.input 3) } :
          CGState).real_A = some a →
      ({ freshState false with
        real_A := some (.input 0), fake_A := some (.input 2),
        real_B := some (.input 1), fake_B := some (.input 3) } :
          CGState).fake_A = some b →
      ({ freshState false with
        real_A := some (.input 0), fake_A := some (.input 2),
        real_B := some (.input 1), fake_B := some (.input 3) } :
          CGState).real_B = some c →
      ({ freshState false with
        real_A := some (.input 0), fake_A := some (.input 2),
        real_B := some (.input 1), fake_B := some (.input 3) } :
          CGState).fake_B = some d →
      ({ freshState false with
        real_A := some (.input 0), fake_A := some (.input 2),
        real_B := some (.input 1), fake_B := some (.input 3) } :
          CGState).save_progress "img/" 4 7 =
        ([.image "img/" 4 7, .ckpt .genA_pth, .ckpt .genB_pth],
         some .attributeError)) ∧
    (freshState false).is_train = false :=
  save_progress_inference_fails _ "img/" 4 7 rfl

/-- Claim C5: at construction, if the epoch marker file exists at the given
path base, all four model weight files are loaded when training-mode is true
and only the two generator weight files when it is false; construction fails
with the checkpoint-load error when the marker exists but a needed weight
file is missing or malformed (in particular `train=True` with
`discriminator_a.pth` missing), before any training call is reachable; and
if the marker does not exist, no weight files are loaded. -/
theorem init_checkpoint_loading (fs : FS) (train : Bool) :
    (fs.markerExists = false →
      initCycleGAN fs train = .ok (freshState train) ∧
      (freshState train).loaded = []) ∧
    (fs.markerExists = true → fs.genAFile = true → fs.genBFile = true →
      (train = true → fs.disAFile = true → fs.disBFile = true →
        ∃ s, initCycleGAN fs train = .ok s ∧
          s.loaded = [.genA_pth, .genB_pth, .disA_pth, .disB_pth]) ∧
      (train = false →
        ∃ s, initCycleGAN fs train = .ok s ∧
          s.loaded = [.genA_pth, .genB_pth])) ∧
    (fs.markerExists = true →
      (fs.genAFile = false ∨ fs.genBFile = false ∨
        (train = true ∧ (fs.disAFile = false ∨ fs.disBFile = false))) →
      ∃ f, initCycleGAN fs train = .error (.checkpointLoadError f)) := by
  rcases fs with ⟨m, ga, gb, da, db⟩
  cases m <;> cases ga <;> cases gb <;> cases da <;> cases db <;>
    cases train <;> simp [initCycleGAN, loadCkpts, freshState]

/-- Claim C5 witness: the claim's concrete scenario — marker present,
`train=True`, `discriminator_a.pth` missing — fails with the checkpoint-load
error; with all files present all four are loaded; with no marker nothing is
loaded. -/
theorem init_checkpoint_loading_witness :
    (∃ f, initCycleGAN ⟨true, true, true, false, true⟩ true =
      .error (.checkpointLoadError f)) ∧
    (∃ s, initCycleGAN ⟨true, true, true, true, true⟩ true = .ok s ∧
      s.loaded = [.genA_pth, .genB_pth, .disA_pth, .disB_pth]) ∧
    (initCycleGAN ⟨false, true, true, true, true⟩ true = .ok (freshState true) ∧
      (freshState true).loaded = []) :=
  ⟨(init_checkpoint_loading ⟨true, true, true, false, true⟩ true).2.2 rfl
      (Or.inr (Or.inr ⟨rfl, Or.inl rfl⟩)),
   ((init_checkpoint_loading ⟨true, true, true, true, true⟩ true).2.1 rfl rfl
      rfl).1 rfl rfl rfl,
   (init_checkpoint_loading ⟨false, true, true, true, true⟩ true).1 rfl⟩

/-- Claim C1: every successful `train()` call performs exactly, in this
order: forward (its four intermediate assignments), gradient tracking off
for DisA and DisB, clearing the generator optimizer's gradients,
`backward_g`, the generator-optimizer step, gradient tracking back on for
DisA and DisB, clearing the discriminator optimizer's gradients,
`backward_d` on DisA with `(real_B, fake_B)` then on DisB with
`(real_A, fake_A)`, and finally the discriminator-optimizer step — so the
generator parameter update (`evStep true`) strictly precedes the
discriminator parameter update (`evStep false`), and `backward_g` scores
the generator against the discriminators' pre-update weights (it runs
before the only discriminator-mutating event, `evStep false`). -/
theorem train_step_order (s : CGState) (rA rB : Tensor)
    (hT : s.is_train = true)
    (hA : s.real_A = some rA) (hB : s.real_B = some rB) :
    ∃ s', s.train = .ok s' ∧
      s'.log = s.log ++
        [.evForward, .evAssignFakeB, .evAssignNewA, .evAssignFakeA,
         .evAssignNewB,
         .evSetRG [some .disA, some .disB] false,
         .evZeroGrad true, .evBackwardG, .evStep true,
         .evSetRG [some .disA, some .disB] true,
         .evZeroGrad false, .evBackwardD .disA, .evBackwardD .disB,
         .evStep false] := by
  simp [CGState.train, CGState.forward, CGState.set_requires_grad,
        CGState.zeroGrad, CGState.backward_g, CGState.stepOpt,
        CGState.backward_d, CGState.backwardT, CGState.mkApp, getT,
        hT, hA, hB, Bind.bind, Except.bind]

/-- Claim C1 witness: a training-mode controller with inputs set runs one
full step and logs exactly the prescribed sequence. -/
theorem train_step_order_witness :
    ∃ s', ((freshState true).set_input (.input 0) (.input 1)).train = .ok s' ∧
      s'.log = ((freshState true).set_input (.input 0) (.input 1)).log ++
        [.evForward, .evAssignFakeB, .evAssignNewA, .evAssignFakeA,
         .evAssignNewB,
         .evSetRG [some .disA, some .disB] false,
         .evZeroGrad true, .evBackwardG, .evStep true,
         .evSetRG [some .disA, some .disB] true,
         .evZeroGrad false, .evBackwardD .disA, .evBackwardD .disB,
         .evStep false] :=
  train_step_order ((freshState true).set_input (.input 0) (.input 1))
    (.input 0) (.input 1) rfl rfl rfl
